import Mathlib

/-
Verification of the ClearLink EtherNet/IP motor-driver core
(`clearlink_eip.py`, the Protocol Layer, and `clearlink_control.py`,
the Control Layer).

Shallow embedding: the transport (pycomm3 `CIPDriver.generic_message`,
`open`, `close`) is modelled as an oracle `Env : Nat → Req → DevResp`
that answers the n-th device contact of a run; every contact consumes
one oracle index and is recorded in a trace of issued requests.  All
mutable object state (`_connected`, `_driver`, `_output_reg`,
`_motors_enabled`, `_consecutive_read_failures`, the Control Layer's
`_last_velocities` / `_commands_sent` / `_errors`) lives in one record
`St`; each method becomes a function `Env → args → St → result × St`.
`time.sleep` and logging have no observable effect and are dropped.
32-bit register values travel as raw unsigned payloads (`Nat`) and are
decoded exactly as `int.from_bytes(_, 'little', signed=True)` does;
Python's bitwise operators on those signed values are reproduced by
`pyAnd` / `pyOr` / `pyNot` below.
-/

/-- Response of the transport to one device contact.  `ok payload`
is a successful reply carrying a 32-bit little-endian payload;
`noResp` is a falsy/empty reply (Python returns `None`/`False`
without raising); `exc` is a transport exception. -/
inductive DevResp where
  | ok (payload : Nat)
  | noResp
  | exc (msg : String)
deriving DecidableEq

/-- A device request: session open/close, or a single-attribute
get/set identified by class/instance/attribute (reads carry value 0). -/
inductive Req where
  | openSession
  | closeSession
  | attrMsg (isWrite : Bool) (classId : Nat) (inst : Nat) (attrId : Nat) (value : Int)
deriving DecidableEq

/-- The transport oracle: the answer to the `k`-th device contact,
given the request issued. -/
def Env : Type := Nat → Req → DevResp

/-- Combined state of one `ClearLinkControl` instance and the
`ClearLinkEIP` instance it owns (both are constructed with the same
`num_axes`), plus the oracle cursor `k` and the trace of requests
issued so far. -/
structure St where
  k : Nat := 0
  trace : List Req := []
  -- ClearLinkEIP fields
  numAxes : Nat := 4
  connected : Bool := false
  hasDriver : Bool := false
  connectionError : String := ""
  outputReg : List Int := [0, 0, 0, 0]
  motorsEnabled : List Bool := [false, false, false, false]
  consecutiveReadFailures : Nat := 0
  maxReadFailures : Nat := 3
  -- ClearLinkControl fields
  lastVelocities : List Int := [0, 0, 0, 0]
  commandsSent : Nat := 0
  errors : Nat := 0
deriving DecidableEq

-- 32-bit encode/decode helpers (Python int semantics)

/-- The 32-bit two's-complement pattern of an integer
(`value.to_bytes(4, 'little', signed=...)` for in-range values). -/
def toBits32 (v : Int) : Nat := (v % (2 ^ 32 : Int)).toNat

/-- Signed decode of a 32-bit pattern
(`int.from_bytes(b, 'little', signed=True)`). -/
def ofBits32 (w : Nat) : Int :=
  if w < 2 ^ 31 then (w : Int) else (w : Int) - 2 ^ 32

/-- Value produced by a successful attribute read of raw payload `w`. -/
def readValue (w : Nat) : Int := ofBits32 (w % 2 ^ 32)

/-- Python's bitwise `&` restricted to 32-bit-range operands. -/
def pyAnd (a b : Int) : Int := ofBits32 (toBits32 a &&& toBits32 b)

/-- Python's bitwise `|` restricted to 32-bit-range operands. -/
def pyOr (a b : Int) : Int := ofBits32 (toBits32 a ||| toBits32 b)

/-- Python's bitwise `~`. -/
def pyNot (a : Int) : Int := -a - 1

namespace ClearLinkEIP

-- ClearLink EtherNet/IP class IDs and attribute numbers (Step & Direction)
def MOTOR_CONFIG_CLASS : Nat := 0x64
def MOTOR_INPUT_CLASS : Nat := 0x65
def MOTOR_OUTPUT_CLASS : Nat := 0x66

def ATTR_CFG_NEG_SOFT_LIMIT : Nat := 1
def ATTR_CFG_POS_SOFT_LIMIT : Nat := 2

def ATTR_OUT_JOG_VEL : Nat := 2
def ATTR_OUT_VEL_LIMIT : Nat := 3
def ATTR_OUT_ACCEL : Nat := 4
def ATTR_OUT_DECEL : Nat := 5
def ATTR_OUT_OUTPUT_REG : Nat := 6

def ATTR_IN_CMD_POSITION : Nat := 1
def ATTR_IN_CMD_VELOCITY : Nat := 2
def ATTR_IN_TORQUE : Nat := 6
def ATTR_IN_STATUS_REG : Nat := 7
def ATTR_IN_SHUTDOWN_REG : Nat := 8

-- Output register bits
def BIT_ENABLE : Int := 0x01
def BIT_LOAD_VEL_MOVE : Int := 0x10
def BIT_CLEAR_ALERTS : Int := 0x40
def BIT_CLEAR_MOTOR_FAULT : Int := 0x80

-- Status register bits
def BIT_STEPS_ACTIVE : Int := 2 ^ 1
def BIT_MOTOR_FAULT : Int := 2 ^ 9
def BIT_ENABLED : Int := 2 ^ 10
def BIT_SHUTDOWNS_PRESENT : Int := 2 ^ 17
def BIT_LOAD_VEL_MOVE_ACK : Int := 2 ^ 20

/-- One device contact: consult the oracle at the current cursor and
record the request in the trace. -/
def contact (env : Env) (r : Req) (st : St) : DevResp × St :=
  (env st.k r, { st with k := st.k + 1, trace := st.trace ++ [r] })

/-- `_write_attr`: write a DINT attribute.  Returns `False` without
contacting the device when not connected or no driver; otherwise the
result is `result is not None`, with exceptions mapped to `False`. -/
def write_attr (env : Env) (classId inst attrId : Nat) (value : Int) (st : St) :
    Bool × St :=
  if st.connected = false ∨ st.hasDriver = false then (false, st)
  else
    let (resp, st) := contact env (.attrMsg true classId inst attrId value) st
    match resp with
    | .ok _ => (true, st)
    | .noResp => (false, st)
    | .exc _ => (false, st)

/-- `_read_attr`: read a DINT attribute.  A successful reply resets the
consecutive-read-failure counter and decodes the payload signed; a falsy
reply returns `None` touching nothing; an exception increments the
counter and, at the threshold, marks the instance disconnected with a
non-empty error string. -/
def read_attr (env : Env) (classId inst attrId : Nat) (st : St) :
    Option Int × St :=
  if st.connected = false ∨ st.hasDriver = false then (none, st)
  else
    let (resp, st) := contact env (.attrMsg false classId inst attrId 0) st
    match resp with
    | .ok w => (some (readValue w), { st with consecutiveReadFailures := 0 })
    | .noResp => (none, st)
    | .exc msg =>
        let n := st.consecutiveReadFailures + 1
        if st.maxReadFailures ≤ n then
          (none, { st with consecutiveReadFailures := n, connected := false,
                           connectionError := "Read failures: " ++ msg })
        else (none, { st with consecutiveReadFailures := n })

/-- `_read_attr_float`: read a REAL attribute.  Same control flow as
`_read_attr`; the IEEE-754 decode itself is abstracted to the raw
payload value since no verified property depends on float numerics. -/
def read_attr_float (env : Env) (classId inst attrId : Nat) (st : St) :
    Option Int × St :=
  if st.connected = false ∨ st.hasDriver = false then (none, st)
  else
    let (resp, st) := contact env (.attrMsg false classId inst attrId 0) st
    match resp with
    | .ok w => (some (readValue w), { st with consecutiveReadFailures := 0 })
    | .noResp => (none, st)
    | .exc msg =>
        let n := st.consecutiveReadFailures + 1
        if st.maxReadFailures ≤ n then
          (none, { st with consecutiveReadFailures := n, connected := false,
                           connectionError := "Read failures: " ++ msg })
        else (none, { st with consecutiveReadFailures := n })

/-- `_write_output_reg`: write the output register for an axis and, on
success, update the per-axis shadow of the last written value. -/
def write_output_reg (env : Env) (axis : Nat) (value : Int) (st : St) :
    Bool × St :=
  if axis < 1 ∨ axis > st.numAxes then (false, st)
  else
    let (success, st) := write_attr env MOTOR_OUTPUT_CLASS axis ATTR_OUT_OUTPUT_REG value st
    if success then (success, { st with outputReg := st.outputReg.set (axis - 1) value })
    else (success, st)

/-- `_read_status_reg`. -/
def read_status_reg (env : Env) (axis : Nat) (st : St) : Option Int × St :=
  if axis < 1 ∨ axis > st.numAxes then (none, st)
  else read_attr env MOTOR_INPUT_CLASS axis ATTR_IN_STATUS_REG st

/-- `_read_shutdown_reg`. -/
def read_shutdown_reg (env : Env) (axis : Nat) (st : St) : Option Int × St :=
  if axis < 1 ∨ axis > st.numAxes then (none, st)
  else read_attr env MOTOR_INPUT_CLASS axis ATTR_IN_SHUTDOWN_REG st

/-- The five soft-limit / velocity-parameter writes `_init_axes`
performs for one axis (results discarded). -/
def init_axis (env : Env) (axis : Nat) (st : St) : St :=
  let (_, st) := write_attr env MOTOR_CONFIG_CLASS axis ATTR_CFG_NEG_SOFT_LIMIT (-2000000000) st
  let (_, st) := write_attr env MOTOR_CONFIG_CLASS axis ATTR_CFG_POS_SOFT_LIMIT 2000000000 st
  let (_, st) := write_attr env MOTOR_OUTPUT_CLASS axis ATTR_OUT_VEL_LIMIT 1000000 st
  let (_, st) := write_attr env MOTOR_OUTPUT_CLASS axis ATTR_OUT_ACCEL 500000 st
  let (_, st) := write_attr env MOTOR_OUTPUT_CLASS axis ATTR_OUT_DECEL 500000 st
  st

/-- `_init_axes`: initialize axes `1 .. num_axes`. -/
def init_axes (env : Env) (st : St) : St :=
  (List.range' 1 st.numAxes).foldl (fun s axis => init_axis env axis s) st

/-- `connect`: assign a fresh driver, open the session (one device
contact); on success mark connected, clear the error and the failure
counter and run `_init_axes`; an exception marks disconnected and
records the error (the driver assignment survives). -/
def connect (env : Env) (st : St) : Bool × St :=
  let st := { st with hasDriver := true }
  let (resp, st) := contact env .openSession st
  match resp with
  | .exc msg => (false, { st with connected := false, connectionError := msg })
  | _ =>
      let st := { st with connected := true, connectionError := "",
                          consecutiveReadFailures := 0 }
      let st := init_axes env st
      (true, st)

/-- `disconnect`: when a driver exists, close it (one device contact,
outcome only logged), drop it, mark disconnected and forget all
per-axis enabled flags. -/
def disconnect (env : Env) (st : St) : St :=
  if st.hasDriver then
    let (_, st) := contact env .closeSession st
    { st with hasDriver := false, connected := false,
              motorsEnabled := List.replicate st.numAxes false }
  else st

-- Motor control methods

/-- `clear_faults`: write ClearAlerts|ClearMotorFault, write 0, then
read the shutdown register; fail iff a truthy nonzero value read back. -/
def clear_faults (env : Env) (axis : Nat) (st : St) : Bool × St :=
  if axis < 1 ∨ axis > st.numAxes then (false, st)
  else
    let (_, st) := write_output_reg env axis (pyOr BIT_CLEAR_ALERTS BIT_CLEAR_MOTOR_FAULT) st
    let (_, st) := write_output_reg env axis 0 st
    let (shutdown, st) := read_shutdown_reg env axis st
    match shutdown with
    | some v => if v ≠ 0 then (false, st) else (true, st)
    | none => (true, st)

/-- `set_motor_enable`: enable (idempotent when already enabled: leave
the register alone if the shadow holds the Enable bit, else re-assert
Enable only; first-time enable runs the fault-clear sequence, writes
Enable, reads the shutdown register and fails when
`shutdown & 0x400` is truthy) or disable (write 0, clear flag). -/
def set_motor_enable (env : Env) (axis : Nat) (enable : Bool) (st : St) :
    Bool × St :=
  if axis < 1 ∨ axis > st.numAxes then (false, st)
  else if enable then
    if st.motorsEnabled.getD (axis - 1) false then
      if pyAnd (st.outputReg.getD (axis - 1) 0) BIT_ENABLE ≠ 0 then (true, st)
      else
        let (_, st) := write_output_reg env axis BIT_ENABLE st
        (true, st)
    else
      let (_, st) := write_output_reg env axis (pyOr BIT_CLEAR_ALERTS BIT_CLEAR_MOTOR_FAULT) st
      let (_, st) := write_output_reg env axis 0 st
      let (_, st) := write_output_reg env axis BIT_ENABLE st
      let (shutdown, st) := read_shutdown_reg env axis st
      -- `blocking_faults = shutdown & 0x400 if shutdown else 0`
      let blocking_faults : Int :=
        match shutdown with
        | some v => if v ≠ 0 then pyAnd v 0x400 else 0
        | none => 0
      if blocking_faults ≠ 0 then (false, st)
      else (true, { st with motorsEnabled := st.motorsEnabled.set (axis - 1) true })
  else
    let (_, st) := write_output_reg env axis 0 st
    (true, { st with motorsEnabled := st.motorsEnabled.set (axis - 1) false })

/-- `set_velocity`: write velocity limit (|v| + 100000), acceleration,
deceleration, signed jog velocity, then read the jog velocity back for
logging; always returns `True`. -/
def set_velocity (env : Env) (axis : Nat) (steps_per_sec : Int) (accel : Int) (st : St) :
    Bool × St :=
  if axis < 1 ∨ axis > st.numAxes then (false, st)
  else
    let st := (write_attr env MOTOR_OUTPUT_CLASS axis ATTR_OUT_VEL_LIMIT
      (abs steps_per_sec + 100000) st).2
    let st := (write_attr env MOTOR_OUTPUT_CLASS axis ATTR_OUT_ACCEL accel st).2
    let st := (write_attr env MOTOR_OUTPUT_CLASS axis ATTR_OUT_DECEL accel st).2
    let st := (write_attr env MOTOR_OUTPUT_CLASS axis ATTR_OUT_JOG_VEL steps_per_sec st).2
    let st := (read_attr env MOTOR_OUTPUT_CLASS axis ATTR_OUT_JOG_VEL st).2
    (true, st)

/-- Bounded poll (10ms interval in the source) reading the status
register until a successful read shows the Load Velocity Move Ack bit
clear; used in `stop_motor` steps 1 and 6 (50 attempts) and in
`trigger_move` (10 attempts). -/
def poll_ack_clear (env : Env) (axis : Nat) : Nat → St → St
  | 0, st => st
  | n + 1, st =>
      let (status_reg, st) := read_attr env MOTOR_INPUT_CLASS axis ATTR_IN_STATUS_REG st
      match status_reg with
      | some v =>
          if pyAnd v BIT_LOAD_VEL_MOVE_ACK = 0 then st
          else poll_ack_clear env axis n st
      | none => poll_ack_clear env axis n st

/-- Bounded poll reading the status register until a successful read
shows the ack bit set; `stop_motor` step 4 (timeout only logged). -/
def poll_ack_set (env : Env) (axis : Nat) : Nat → St → St
  | 0, st => st
  | n + 1, st =>
      let (status_reg, st) := read_attr env MOTOR_INPUT_CLASS axis ATTR_IN_STATUS_REG st
      match status_reg with
      | some v =>
          if pyAnd v BIT_LOAD_VEL_MOVE_ACK ≠ 0 then st
          else poll_ack_set env axis n st
      | none => poll_ack_set env axis n st

/-- `trigger_move`: pre-flight fault clear when the shutdown register
reads back nonzero, then clear a pending ack if the status register
shows one, finally write Enable|LoadVelocityMove and return that
write's result. -/
def trigger_move (env : Env) (axis : Nat) (st : St) : Bool × St :=
  if axis < 1 ∨ axis > st.numAxes then (false, st)
  else
    let (shutdown_reg, st) := read_attr env MOTOR_INPUT_CLASS axis ATTR_IN_SHUTDOWN_REG st
    let st :=
      match shutdown_reg with
      | some v =>
          if v ≠ 0 then
            let st := (write_output_reg env axis
              (pyOr BIT_CLEAR_ALERTS BIT_CLEAR_MOTOR_FAULT) st).2
            let st := (write_output_reg env axis 0 st).2
            (write_output_reg env axis BIT_ENABLE st).2
          else st
      | none => st
    let (status_reg, st) := read_attr env MOTOR_INPUT_CLASS axis ATTR_IN_STATUS_REG st
    let st :=
      match status_reg with
      | some v =>
          if pyAnd v BIT_LOAD_VEL_MOVE_ACK ≠ 0 then
            poll_ack_clear env axis 10 (write_output_reg env axis BIT_ENABLE st).2
          else st
      | none => st
    write_output_reg env axis (pyOr BIT_ENABLE BIT_LOAD_VEL_MOVE) st

/-- `stop_motor` steps 1-4: clear a pending ack from a previous move
(write Enable and poll up to 50 times) when the status register shows
one, write jog velocity 0, write Enable|LoadVelocityMove to trigger the
zero-velocity move, then poll up to 50 times for the ack bit to set
(found-or-not is only logged). -/
def stop_steps_1_to_4 (env : Env) (axis : Nat) (st : St) : St :=
  -- Step 1
  let (status_reg, st) := read_attr env MOTOR_INPUT_CLASS axis ATTR_IN_STATUS_REG st
  let st :=
    match status_reg with
    | some v =>
        if pyAnd v BIT_LOAD_VEL_MOVE_ACK ≠ 0 then
          poll_ack_clear env axis 50 (write_output_reg env axis BIT_ENABLE st).2
        else st
    | none => st
  -- Step 2
  let st := (write_attr env MOTOR_OUTPUT_CLASS axis ATTR_OUT_JOG_VEL 0 st).2
  -- Step 3
  let st := (write_output_reg env axis (pyOr BIT_ENABLE BIT_LOAD_VEL_MOVE) st).2
  -- Step 4
  poll_ack_set env axis 50 st

/-- `stop_motor` step 5: up to `n` attempts (3 in the source) of
writing Enable only and reading the output register back to verify the
Load bit cleared.  Returns `clear_success` paired with the number of
loop iterations performed (the source's `attempt` counter, visible in
its log lines); `stop_motor` uses only the Bool. -/
def clear_load_loop (env : Env) (axis : Nat) : Nat → St → (Bool × Nat) × St
  | 0, st => ((false, 0), st)
  | n + 1, st =>
      let st := (write_output_reg env axis BIT_ENABLE st).2
      let (out_reg, st) := read_attr env MOTOR_OUTPUT_CLASS axis ATTR_OUT_OUTPUT_REG st
      match out_reg with
      | some v =>
          if pyAnd v BIT_LOAD_VEL_MOVE = 0 then ((true, 1), st)
          else
            let (r, st) := clear_load_loop env axis n st
            ((r.1, r.2 + 1), st)
      | none =>
          let (r, st) := clear_load_loop env axis n st
          ((r.1, r.2 + 1), st)

/-- `stop_motor`: the six-step stop handshake; the function result is
the step-5 verification flag (`clear_success`) alone. -/
def stop_motor (env : Env) (axis : Nat) (st : St) : Bool × St :=
  if axis < 1 ∨ axis > st.numAxes then (false, st)
  else
    let st := stop_steps_1_to_4 env axis st
    -- Step 5
    let (r, st) := clear_load_loop env axis 3 st
    -- Step 6
    let st := poll_ack_clear env axis 50 st
    (r.1, st)

/-- `stop_all`: `stop_motor` on every axis in order, continue on error,
result is the conjunction of per-axis results. -/
def stop_all_loop (env : Env) : List Nat → St → Bool × St
  | [], st => (true, st)
  | axis :: rest, st =>
      let (ok, st) := stop_motor env axis st
      let (restOk, st) := stop_all_loop env rest st
      (ok && restOk, st)

/-- `stop_all` over axes `1 .. num_axes`. -/
def stop_all (env : Env) (st : St) : Bool × St :=
  stop_all_loop env (List.range' 1 st.numAxes) st

/-- `AxisStatus` with its dataclass defaults.  `torque` is an `f32` in
the source; it is modelled as the raw payload (sentinel -9999), no
claim depends on its numerics. -/
structure AxisStatus where
  enabled : Bool := false
  fault : Bool := false
  moving : Bool := false
  homed : Bool := false
  position : Int := 0
  velocity : Int := 0
  torque : Int := -9999
  shutdown : Int := 0
deriving DecidableEq

/-- `get_axis_status`: best-effort per-axis status read; every field
keeps its default when its read fails.  `fault` is derived from the
shutdown register through the fixed non-blocking mask 0x421. -/
def get_axis_status (env : Env) (axis : Nat) (st : St) : AxisStatus × St :=
  let status : AxisStatus := {}
  if axis < 1 ∨ axis > st.numAxes then (status, st)
  else if st.connected = false then (status, st)
  else
    let (status_reg, st) := read_attr env MOTOR_INPUT_CLASS axis ATTR_IN_STATUS_REG st
    let status :=
      match status_reg with
      | some v =>
          { status with enabled := decide (pyAnd v BIT_ENABLED ≠ 0),
                        moving := decide (pyAnd v BIT_STEPS_ACTIVE ≠ 0),
                        homed := !decide (pyAnd v (2 ^ 12) ≠ 0) }
      | none => status
    let (shutdown_reg, st) := read_attr env MOTOR_INPUT_CLASS axis ATTR_IN_SHUTDOWN_REG st
    let status :=
      match shutdown_reg with
      | some v =>
          let non_blocking : Int := 0x421
          let blocking_faults := pyAnd v (pyNot non_blocking)
          { status with shutdown := v, fault := decide (blocking_faults ≠ 0) }
      | none => status
    let (pos, st) := read_attr env MOTOR_INPUT_CLASS axis ATTR_IN_CMD_POSITION st
    let status := match pos with
      | some p => { status with position := p }
      | none => status
    let (vel, st) := read_attr env MOTOR_INPUT_CLASS axis ATTR_IN_CMD_VELOCITY st
    let status := match vel with
      | some v => { status with velocity := v }
      | none => status
    let (torque, st) := read_attr_float env MOTOR_INPUT_CLASS axis ATTR_IN_TORQUE st
    let status := match torque with
      | some t => { status with torque := t }
      | none => status
    (status, st)

end ClearLinkEIP

namespace ClearLinkControl

open ClearLinkEIP

/-- Body of the `drive_velocity` loop for 0-based index `i` with
requested velocity `velocity`: dedup-skip a repeated nonzero velocity,
dispatch velocity 0 to `stop_motor` unconditionally (cache reset to 0
only on success), otherwise `set_velocity` then `trigger_move` with the
cache updated only when both succeed.  Returns whether this axis left
the overall success flag intact. -/
def drive_axis (env : Env) (accel : Int) (i : Nat) (velocity : Int) (st : St) :
    Bool × St :=
  if velocity ≠ 0 ∧ velocity = st.lastVelocities.getD i 0 then (true, st)
  else if velocity = 0 then
    let (stop_ok, st) := stop_motor env (i + 1) st
    if stop_ok = false then (false, { st with errors := st.errors + 1 })
    else (true, { st with lastVelocities := st.lastVelocities.set i 0,
                          commandsSent := st.commandsSent + 1 })
  else
    let (vel_ok, st) := set_velocity env (i + 1) velocity accel st
    if vel_ok = false then (false, { st with errors := st.errors + 1 })
    else
      let (trig_ok, st) := trigger_move env (i + 1) st
      if trig_ok = false then (false, { st with errors := st.errors + 1 })
      else (true, { st with lastVelocities := st.lastVelocities.set i velocity,
                            commandsSent := st.commandsSent + 1 })

/-- The `drive_velocity` loop over the remaining requested velocities,
starting at 0-based index `i`; indices beyond `num_axes` break out. -/
def drive_loop (env : Env) (accel : Int) : List Int → Nat → St → Bool × St
  | [], _, st => (true, st)
  | velocity :: rest, i, st =>
      if i + 1 > st.numAxes then (true, st)
      else
        let (ok, st) := drive_axis env accel i velocity st
        let (restOk, st) := drive_loop env accel rest (i + 1) st
        (ok && restOk, st)

/-- `drive_velocity`. -/
def drive_velocity (env : Env) (axis_velocities : List Int) (accel : Int) (st : St) :
    Bool × St :=
  drive_loop env accel axis_velocities 0 st

/-- `stop(decel)`: delegate to `stop_all`; on success reset all cached
velocities to 0 and count a command, else count an error.  The `decel`
argument is accepted but never used. -/
def stop (env : Env) (decel : Int) (st : St) : Bool × St :=
  let (success, st) := stop_all env st
  if success then
    (success, { st with lastVelocities := List.replicate st.numAxes 0,
                        commandsSent := st.commandsSent + 1 })
  else (success, { st with errors := st.errors + 1 })

end ClearLinkControl

-- Concrete fixtures for witnesses and counterexamples

open ClearLinkEIP

/-- A live, freshly connected 4-axis instance. -/
def stLive : St := { connected := true, hasDriver := true }

/-- Oracle answering every contact successfully with payload 0. -/
def envOk : Env := fun _ _ => .ok 0

/-- Oracle raising a transport exception on every contact. -/
def envExc : Env := fun _ _ => .exc "boom"

/-- Oracle whose reads all return payload `w` and whose writes and
session operations all succeed. -/
def envRead (w : Nat) : Env := fun _ r =>
  match r with
  | .attrMsg false _ _ _ _ => .ok w
  | _ => .ok 0

/-- A live instance whose axis 1 is marked enabled with the Enable bit
present in the output-register shadow. -/
def stEnabled : St :=
  { connected := true, hasDriver := true,
    outputReg := [1, 0, 0, 0], motorsEnabled := [true, false, false, false] }

/-- A live instance whose axis 1 is marked enabled but whose
output-register shadow lost the Enable bit. -/
def stEnabledNoBit : St :=
  { connected := true, hasDriver := true,
    motorsEnabled := [true, false, false, false] }

/-- A connected instance with two consecutive read failures already
recorded: one more failing read reaches the disconnect threshold. -/
def stAlmostDead : St :=
  { connected := true, hasDriver := true, consecutiveReadFailures := 2 }

/-- A live instance whose axis 1 has a cached last-commanded velocity
of 5 steps/sec. -/
def stVel5 : St :=
  { connected := true, hasDriver := true, lastVelocities := [5, 0, 0, 0] }


-- Arithmetic facts about the 32-bit encode/decode helpers

theorem toBits32_ofBits32 (x : Nat) (hx : x < 2 ^ 32) : toBits32 (ofBits32 x) = x := by
  unfold toBits32 ofBits32
  by_cases h : x < 2 ^ 31
  · simp only [h, if_pos]
    rw [Int.emod_eq_of_lt (by positivity) (by exact_mod_cast hx)]
    exact Int.toNat_natCast x
  · simp only [h, if_neg, not_false_iff]
    rw [show ((x : Int) - 2 ^ 32) % 2 ^ 32 = (x : Int) % 2 ^ 32 by
      simp [Int.sub_emod]]
    rw [Int.emod_eq_of_lt (by positivity) (by exact_mod_cast hx)]
    exact Int.toNat_natCast x

theorem toBits32_readValue (w : Nat) : toBits32 (readValue w) = w % 2 ^ 32 := by
  unfold readValue
  exact toBits32_ofBits32 _ (Nat.mod_lt w (by norm_num))

theorem ofBits32_eq_zero_iff (x : Nat) (hx : x < 2 ^ 32) : ofBits32 x = 0 ↔ x = 0 := by
  unfold ofBits32
  split
  · exact Int.natCast_eq_zero
  · next h =>
    constructor
    · intro hz
      have hx32 : (x : Int) = 2 ^ 32 := by linarith
      have : x = 2 ^ 32 := by exact_mod_cast hx32
      omega
    · intro hz
      subst hz
      exact absurd (by norm_num) h

theorem readValue_eq_zero_iff (w : Nat) (hw : w < 2 ^ 32) : readValue w = 0 ↔ w = 0 := by
  unfold readValue
  rw [Nat.mod_eq_of_lt hw]
  exact ofBits32_eq_zero_iff w hw

/-- `pyAnd` of a decoded payload with a constant is the decode of the
corresponding `Nat` bitwise AND. -/
theorem pyAnd_readValue (w : Nat) (hw : w < 2 ^ 32) (c : Int) :
    pyAnd (readValue w) c = ofBits32 (w &&& toBits32 c) := by
  unfold pyAnd
  rw [toBits32_readValue, Nat.mod_eq_of_lt hw]

theorem land_lt_two_pow_32 (w m : Nat) (hm : m < 2 ^ 32) : w &&& m < 2 ^ 32 :=
  lt_of_le_of_lt Nat.and_le_right hm

/-- A value is made only of bits of the non-blocking mask 0x421 = 1057
iff its AND with the 32-bit complement 0xFFFFFBDE = 4294966238 is 0. -/
theorem land_nonblocking_iff (w : Nat) (hw : w < 2 ^ 32) :
    w &&& 4294966238 = 0 ↔ w &&& 1057 = w := by
  have hM : (4294966238 : Nat) = (2 ^ 32 - 1) ^^^ 1057 := by decide
  constructor
  · intro h
    apply Nat.eq_of_testBit_eq
    intro i
    rw [Nat.testBit_land]
    cases hwi : w.testBit i with
    | false => simp
    | true =>
        have hi : i < 32 := by
          by_contra hge
          have : w < 2 ^ i :=
            lt_of_lt_of_le hw (Nat.pow_le_pow_right (by norm_num) (by omega))
          rw [Nat.testBit_lt_two_pow this] at hwi
          exact Bool.false_ne_true hwi
        have h0 : (w &&& 4294966238).testBit i = false := by rw [h]; simp
        rw [Nat.testBit_land, hwi, Bool.true_and, hM, Nat.testBit_xor,
            Nat.testBit_two_pow_sub_one] at h0
        simp only [hi, decide_True] at h0
        cases h1057 : Nat.testBit 1057 i with
        | true => simp [h1057]
        | false => rw [h1057] at h0; simp at h0
  · intro h
    have h0 : (1057 : Nat) &&& 4294966238 = 0 := by decide
    calc w &&& 4294966238 = w &&& 1057 &&& 4294966238 := by rw [h]
    _ = w &&& (1057 &&& 4294966238) := Nat.land_assoc w 1057 4294966238
    _ = 0 := by rw [h0, Nat.and_zero]


/-- Claim C10: the `decel` argument of the Control Layer's
`stop(decel)` has no effect: for any two decel values and the same
initial state, `stop` issues the same device requests, returns the
same result and leaves the same final state. -/
theorem c10_stop_ignores_decel (env : Env) (d1 d2 : Int) (st : St) :
    ClearLinkControl.stop env d1 st = ClearLinkControl.stop env d2 st := rfl

/-- Claim C7: for an axis index outside `[1, num_axes]`, every Protocol
Layer operation fails immediately, issues no device request (the trace
and oracle cursor are untouched) and leaves the whole state unchanged. -/
theorem c7_invalid_axis_rejected (env : Env) (st : St) (axis : Nat)
    (h : axis < 1 ∨ axis > st.numAxes) :
    clear_faults env axis st = (false, st) ∧
    (∀ enable, set_motor_enable env axis enable st = (false, st)) ∧
    (∀ v accel, set_velocity env axis v accel st = (false, st)) ∧
    trigger_move env axis st = (false, st) ∧
    stop_motor env axis st = (false, st) ∧
    get_axis_status env axis st = ({}, st) := by
  refine ⟨?_, fun enable => ?_, fun v accel => ?_, ?_, ?_, ?_⟩
  · unfold clear_faults; rw [if_pos h]
  · unfold set_motor_enable; rw [if_pos h]
  · unfold set_velocity; rw [if_pos h]
  · unfold trigger_move; rw [if_pos h]
  · unfold stop_motor; rw [if_pos h]
  · unfold get_axis_status; rw [if_pos h]

/-- Claim C7 witness: axis 0 on a live 4-axis instance. -/
theorem c7_invalid_axis_rejected_witness :
    clear_faults envOk 0 stLive = (false, stLive) ∧
    stop_motor envOk 0 stLive = (false, stLive) := by
  have h := c7_invalid_axis_rejected envOk stLive 0 (Or.inl (by decide))
  exact ⟨h.1, h.2.2.2.2.1⟩

/-- Claim C9: the per-axis output-register shadow is updated to the
written value exactly when the transport write succeeds; a failed write
leaves the shadow unchanged. -/
theorem c9_shadow_tracks_successful_writes (env : Env) (st : St) (axis : Nat)
    (value : Int) (h1 : 1 ≤ axis) (h2 : axis ≤ st.numAxes) :
    ((write_output_reg env axis value st).1 = true →
      (write_output_reg env axis value st).2.outputReg =
        st.outputReg.set (axis - 1) value) ∧
    ((write_output_reg env axis value st).1 = false →
      (write_output_reg env axis value st).2.outputReg = st.outputReg) := by
  have hg : ¬(axis < 1 ∨ axis > st.numAxes) := by omega
  unfold write_output_reg write_attr contact
  rw [if_neg hg]
  by_cases hc : st.connected = false ∨ st.hasDriver = false
  · rw [if_pos hc]
    simp
  · rw [if_neg hc]
    rcases henv : env st.k (.attrMsg true MOTOR_OUTPUT_CLASS axis ATTR_OUT_OUTPUT_REG value)
      with w | _ | msg <;> simp [henv]

/-- A read from a live state stays live as long as one more failure
would still be under the disconnect threshold. -/
theorem read_attr_keeps_connected (env : Env) (c i a : Nat) (st : St)
    (hc : st.connected = true) (hd : st.hasDriver = true)
    (hroom : st.consecutiveReadFailures + 1 < st.maxReadFailures) :
    (read_attr env c i a st).2.connected = true ∧
    (read_attr env c i a st).2.hasDriver = true := by
  unfold read_attr contact
  rw [if_neg (by simp [hc, hd])]
  rcases env st.k (.attrMsg false c i a 0) with w | _ | m
  · simp [hc, hd]
  · simp [hc, hd]
  · simp only
    rw [if_neg (by omega)]
    simp [hc, hd]

/-- When the oracle answers the upcoming read with `ok w`, a read from
a live state returns the signed decode of `w`. -/
theorem read_attr_fst (env : Env) (c i a : Nat) (st : St)
    (hc : st.connected = true) (hd : st.hasDriver = true) (w : Nat)
    (henv : env st.k (.attrMsg false c i a 0) = .ok w) :
    (read_attr env c i a st).1 = some (readValue w) := by
  unfold read_attr contact
  rw [if_neg (by simp [hc, hd]), henv]

/-- The boolean the source stores in `status.fault`, decoded: it is
`false` exactly when the raw shutdown value is made of bits of the
non-blocking mask 0x421 only. -/
theorem fault_decode (w : Nat) (hw : w < 2 ^ 32) :
    (decide (pyAnd (readValue w) (pyNot 1057) ≠ 0) = false) ↔ w &&& 1057 = w := by
  have h1 : pyNot (1057 : Int) = -1058 := by decide
  have h2 : toBits32 (-1058) = 4294966238 := by decide
  rw [h1, pyAnd_readValue w hw, h2, decide_eq_false_iff_not, not_ne_iff,
      ofBits32_eq_zero_iff _ (land_lt_two_pow_32 w _ (by norm_num))]
  exact land_nonblocking_iff w hw

/-- Claim C5: in `get_axis_status` the `fault` field is the shutdown
register classified through the fixed mask — `fault = false` iff every
set bit of the register lies inside the non-blocking mask 0x421 (so the
mask itself and all its subsets give `fault = false`, any bit outside
gives `fault = true`) — and the raw register value is stored unchanged
in the `shutdown` field. -/
theorem c5_fault_classification (env : Env) (st : St) (axis : Nat) (w : Nat)
    (h1 : 1 ≤ axis) (h2 : axis ≤ st.numAxes)
    (hc : st.connected = true) (hd : st.hasDriver = true)
    (hroom : st.consecutiveReadFailures + 1 < st.maxReadFailures)
    (henv : ∀ k, env k (.attrMsg false MOTOR_INPUT_CLASS axis ATTR_IN_SHUTDOWN_REG 0)
      = .ok w)
    (hw : w < 2 ^ 32) :
    ((get_axis_status env axis st).1.fault = false ↔ w &&& 1057 = w) ∧
    (get_axis_status env axis st).1.shutdown = readValue w := by
  have hg : ¬(axis < 1 ∨ axis > st.numAxes) := by omega
  unfold get_axis_status
  rw [if_neg hg, if_neg (by simp [hc])]
  have hlive := read_attr_keeps_connected env MOTOR_INPUT_CLASS axis ATTR_IN_STATUS_REG
    st hc hd hroom
  rcases hsr : read_attr env MOTOR_INPUT_CLASS axis ATTR_IN_STATUS_REG st with ⟨sr, st1⟩
  rw [hsr] at hlive
  simp only at hlive
  rcases hshut : read_attr env MOTOR_INPUT_CLASS axis ATTR_IN_SHUTDOWN_REG st1
    with ⟨sh, st2⟩
  have hsh : sh = some (readValue w) := by
    have hfst := read_attr_fst env MOTOR_INPUT_CLASS axis ATTR_IN_SHUTDOWN_REG st1
      hlive.1 hlive.2 w (henv st1.k)
    rw [hshut] at hfst
    exact hfst
  subst hsh
  rcases hp : read_attr env MOTOR_INPUT_CLASS axis ATTR_IN_CMD_POSITION st2
    with ⟨po, st3⟩
  rcases hv : read_attr env MOTOR_INPUT_CLASS axis ATTR_IN_CMD_VELOCITY st3
    with ⟨ve, st4⟩
  rcases ht : read_attr_float env MOTOR_INPUT_CLASS axis ATTR_IN_TORQUE st4
    with ⟨tq, st5⟩
  rcases sr with _ | v <;> rcases po with _ | p <;> rcases ve with _ | q <;>
    rcases tq with _ | t <;>
    simp only [hshut, hp, hv, ht] <;>
    exact ⟨fault_decode w hw, trivial⟩

/-- Claim C5 witness: shutdown value 0x421 (the mask itself) yields
`fault = false`, shutdown value 2 (a bit outside the mask) yields
`fault = true`, and the raw value is stored. -/
theorem c5_fault_classification_witness :
    ((get_axis_status (fun _ _ => .ok 1057) 1 stLive).1.fault = false) ∧
    ((get_axis_status (fun _ _ => .ok 2) 1 stLive).1.fault = true) ∧
    ((get_axis_status (fun _ _ => .ok 1057) 1 stLive).1.shutdown = 1057) := by
  have hA := c5_fault_classification (fun _ _ => .ok 1057) stLive 1 1057
    (by decide) (by decide) (by decide) (by decide) (by decide)
    (fun k => rfl) (by norm_num)
  have hB := c5_fault_classification (fun _ _ => .ok 2) stLive 1 2
    (by decide) (by decide) (by decide) (by decide) (by decide)
    (fun k => rfl) (by norm_num)
  refine ⟨hA.1.mpr (by decide), ?_, ?_⟩
  · cases hf : (get_axis_status (fun _ _ => .ok 2) 1 stLive).1.fault with
    | true => rfl
    | false => exact absurd (hB.1.mp hf) (by decide)
  · rw [hA.2]; decide

/-- Claim C8: `clear_faults` on a valid axis issues exactly the
fault-clear write, the zero write and the shutdown-register read; under
a transport whose writes succeed and whose shutdown read returns `w`,
it succeeds iff `w = 0`, and the fault-clear writes stay applied (the
output-register shadow ends at 0) even when it fails. -/
theorem c8_clear_faults_verify (env : Env) (st : St) (axis : Nat) (w : Nat)
    (h1 : 1 ≤ axis) (h2 : axis ≤ st.numAxes)
    (hc : st.connected = true) (hd : st.hasDriver = true)
    (hwr : ∀ k c i a v, env k (.attrMsg true c i a v) = .ok 0)
    (hrd : ∀ k, env k (.attrMsg false MOTOR_INPUT_CLASS axis ATTR_IN_SHUTDOWN_REG 0)
      = .ok w)
    (hw : w < 2 ^ 32) :
    ((clear_faults env axis st).1 = true ↔ w = 0) ∧
    (clear_faults env axis st).2.trace = st.trace ++
      [.attrMsg true MOTOR_OUTPUT_CLASS axis ATTR_OUT_OUTPUT_REG
         (pyOr BIT_CLEAR_ALERTS BIT_CLEAR_MOTOR_FAULT),
       .attrMsg true MOTOR_OUTPUT_CLASS axis ATTR_OUT_OUTPUT_REG 0,
       .attrMsg false MOTOR_INPUT_CLASS axis ATTR_IN_SHUTDOWN_REG 0] ∧
    (clear_faults env axis st).2.outputReg = st.outputReg.set (axis - 1) 0 := by
  have ha0 : ¬(axis = 0) := by omega
  have han : ¬(st.numAxes < axis) := by omega
  unfold clear_faults write_output_reg read_shutdown_reg write_attr read_attr contact
  by_cases hz : readValue w = 0
  · have hw0 : w = 0 := (readValue_eq_zero_iff w hw).1 hz
    simp [ha0, han, hc, hd, hwr, hrd, hz, hw0, (by decide : readValue 0 = 0)]
  · have hw0 : w ≠ 0 := fun h0 => hz ((readValue_eq_zero_iff w hw).2 h0)
    simp [ha0, han, hc, hd, hwr, hrd, hz, hw0]

theorem getD_set_self {α : Type} (l : List α) (i : Nat) (a d : α)
    (h : i < l.length) : (l.set i a).getD i d = a := by
  induction l generalizing i with
  | nil => simp at h
  | cons x xs ih =>
      cases i with
      | zero => rfl
      | succ n => exact ih n (by simpa using h)


/-- Claim C3: `set_motor_enable(axis, true)` is idempotent — when the
axis is marked enabled and the shadow holds the Enable bit the call
performs zero device contacts, returns true and leaves the state
untouched (so a second call also touches nothing); when the shadow
lost the bit the call issues exactly one write of the Enable bit alone
(never the fault-clear sequence) and returns true; and after a
successful first-time enable over a fully working transport the second
call is a no-op returning true. -/
theorem c3_enable_idempotent (env : Env) (st : St) (axis : Nat)
    (h1 : 1 ≤ axis) (h2 : axis ≤ st.numAxes) :
    (st.motorsEnabled.getD (axis - 1) false = true →
      pyAnd (st.outputReg.getD (axis - 1) 0) BIT_ENABLE ≠ 0 →
      set_motor_enable env axis true st = (true, st)) ∧
    (st.motorsEnabled.getD (axis - 1) false = true →
      pyAnd (st.outputReg.getD (axis - 1) 0) BIT_ENABLE = 0 →
      st.connected = true → st.hasDriver = true →
      (set_motor_enable env axis true st).1 = true ∧
      (set_motor_enable env axis true st).2.trace = st.trace ++
        [.attrMsg true MOTOR_OUTPUT_CLASS axis ATTR_OUT_OUTPUT_REG BIT_ENABLE]) ∧
    (st.motorsEnabled.getD (axis - 1) false = true →
      pyAnd (st.outputReg.getD (axis - 1) 0) BIT_ENABLE ≠ 0 →
      (set_motor_enable env axis true (set_motor_enable env axis true st).2).2.trace
        = st.trace) ∧
    (st.motorsEnabled.getD (axis - 1) false = false →
      st.connected = true → st.hasDriver = true →
      (∀ k r, env k r = .ok 0) →
      axis - 1 < st.motorsEnabled.length → axis - 1 < st.outputReg.length →
      set_motor_enable env axis true (set_motor_enable env axis true st).2
        = (true, (set_motor_enable env axis true st).2)) := by
  have ha0 : ¬(axis = 0) := by omega
  have han : ¬(st.numAxes < axis) := by omega
  refine ⟨?_, ?_, ?_, ?_⟩
  · intro hen hbit
    simp only [List.getD_eq_getElem?_getD] at hen hbit
    simp [set_motor_enable, ha0, han, hen, hbit]
  · intro hen hbit0 hc hd
    simp only [List.getD_eq_getElem?_getD] at hen hbit0
    rcases henv : env st.k (.attrMsg true MOTOR_OUTPUT_CLASS axis ATTR_OUT_OUTPUT_REG
        BIT_ENABLE) with w | _ | m <;>
      simp [set_motor_enable, write_output_reg, write_attr, contact,
        ha0, han, hen, hbit0, hc, hd, henv]
  · intro hen hbit
    simp only [List.getD_eq_getElem?_getD] at hen hbit
    simp [set_motor_enable, ha0, han, hen, hbit]
  · intro hfe hc hd hall hlen1 hlen2
    have hm : (st.motorsEnabled.set (axis - 1) true).getD (axis - 1) false = true :=
      getD_set_self _ _ _ _ (by simpa using hlen1)
    have ho : (st.outputReg.set (axis - 1) BIT_ENABLE).getD (axis - 1) 0 = BIT_ENABLE :=
      getD_set_self _ _ _ _ (by simpa using hlen2)
    simp only [List.getD_eq_getElem?_getD] at hfe hm ho
    simp [set_motor_enable, write_output_reg, write_attr, read_shutdown_reg, read_attr,
      contact, ha0, han, hfe, hc, hd, hall, hm, ho,
      (by decide : readValue 0 = 0), (by decide : pyAnd BIT_ENABLE BIT_ENABLE ≠ 0)]

/-- Claim C3 witness: concrete instances of the three idempotence
behaviours on axis 1. -/
theorem c3_enable_idempotent_witness :
    set_motor_enable envOk 1 true stEnabled = (true, stEnabled) ∧
    (set_motor_enable envOk 1 true stEnabledNoBit).2.trace = stEnabledNoBit.trace ++
      [.attrMsg true MOTOR_OUTPUT_CLASS 1 ATTR_OUT_OUTPUT_REG BIT_ENABLE] ∧
    set_motor_enable (fun _ _ => .ok 0) 1 true
        (set_motor_enable (fun _ _ => .ok 0) 1 true stLive).2
      = (true, (set_motor_enable (fun _ _ => .ok 0) 1 true stLive).2) := by
  have hA := c3_enable_idempotent envOk stEnabled 1 (by decide) (by decide)
  have hB := c3_enable_idempotent envOk stEnabledNoBit 1 (by decide) (by decide)
  have hC := c3_enable_idempotent (fun _ _ => .ok 0) stLive 1 (by decide) (by decide)
  exact ⟨hA.1 (by decide) (by decide),
         (hB.2.1 (by decide) (by decide) (by decide) (by decide)).2,
         hC.2.2.2 (by decide) (by decide) (by decide) (fun k r => rfl)
           (by decide) (by decide)⟩

/-- The `blocking_faults` test of `set_motor_enable`, decoded: the
read-back is truthy with `shutdown & 0x400` nonzero exactly when bit
0x400 is set in the raw shutdown value. -/
theorem blocking_decode (w : Nat) (hw : w < 2 ^ 32) :
    (¬readValue w = 0 ∧ ¬pyAnd (readValue w) 1024 = 0) ↔ ¬(w &&& 1024 = 0) := by
  by_cases hz : readValue w = 0
  · have hw0 : w = 0 := (readValue_eq_zero_iff w hw).1 hz
    subst hw0
    simp [hz]
  · rw [pyAnd_readValue w hw, (by decide : toBits32 1024 = 1024),
        ofBits32_eq_zero_iff _ (land_lt_two_pow_32 w 1024 (by norm_num))]
    simp [hz]

/-- Claim C4 (amended): on a first-time enable of a valid axis over a
transport whose writes succeed, `set_motor_enable(axis, true)` issues
the fault-clear write, the zero write, the Enable write and one
shutdown-register read, and returns false iff the value read back has
bit 0x400 (MotorFaulted) set — the code tests `shutdown & 0x400`, not
the complement of the non-blocking mask 0x421; on success (bit 0x400
clear) it marks the axis enabled and returns true. -/
theorem c4_first_enable_blocking_bit (env : Env) (st : St) (axis : Nat) (w : Nat)
    (h1 : 1 ≤ axis) (h2 : axis ≤ st.numAxes)
    (hfe : st.motorsEnabled.getD (axis - 1) false = false)
    (hc : st.connected = true) (hd : st.hasDriver = true)
    (hwr : ∀ k c i a v, env k (.attrMsg true c i a v) = .ok 0)
    (hrd : ∀ k, env k (.attrMsg false MOTOR_INPUT_CLASS axis ATTR_IN_SHUTDOWN_REG 0)
      = .ok w)
    (hw : w < 2 ^ 32) :
    ((set_motor_enable env axis true st).1 = false ↔ w &&& 1024 ≠ 0) ∧
    (set_motor_enable env axis true st).2.trace = st.trace ++
      [.attrMsg true MOTOR_OUTPUT_CLASS axis ATTR_OUT_OUTPUT_REG
         (pyOr BIT_CLEAR_ALERTS BIT_CLEAR_MOTOR_FAULT),
       .attrMsg true MOTOR_OUTPUT_CLASS axis ATTR_OUT_OUTPUT_REG 0,
       .attrMsg true MOTOR_OUTPUT_CLASS axis ATTR_OUT_OUTPUT_REG BIT_ENABLE,
       .attrMsg false MOTOR_INPUT_CLASS axis ATTR_IN_SHUTDOWN_REG 0] ∧
    (w &&& 1024 = 0 →
      (set_motor_enable env axis true st).2.motorsEnabled =
        st.motorsEnabled.set (axis - 1) true) ∧
    (w &&& 1024 ≠ 0 →
      (set_motor_enable env axis true st).2.motorsEnabled = st.motorsEnabled) := by
  have ha0 : ¬(axis = 0) := by omega
  have han : ¬(st.numAxes < axis) := by omega
  simp only [List.getD_eq_getElem?_getD] at hfe
  by_cases hb : w &&& 1024 = 0
  · have hcond : ¬(¬readValue w = 0 ∧ ¬pyAnd (readValue w) 1024 = 0) :=
      fun hcc => (blocking_decode w hw).1 hcc hb
    simp [set_motor_enable, write_output_reg, write_attr, read_shutdown_reg, read_attr,
      contact, ha0, han, hfe, hc, hd, hwr, hrd, hb, hcond]
  · have hcond : ¬readValue w = 0 ∧ ¬pyAnd (readValue w) 1024 = 0 :=
      (blocking_decode w hw).2 hb
    simp [set_motor_enable, write_output_reg, write_attr, read_shutdown_reg, read_attr,
      contact, ha0, han, hfe, hc, hd, hwr, hrd, hb, hcond.1, hcond.2]

/-- Claim C4 witness: shutdown read-back 0 lets the first-time enable
succeed and mark the axis enabled; read-back 0x400 makes it fail. -/
theorem c4_first_enable_blocking_bit_witness :
    (set_motor_enable (envRead 0) 1 true stLive).1 = true ∧
    (set_motor_enable (envRead 0) 1 true stLive).2.motorsEnabled =
      stLive.motorsEnabled.set 0 true ∧
    (set_motor_enable (envRead 1024) 1 true stLive).1 = false := by
  have hA := c4_first_enable_blocking_bit (envRead 0) stLive 1 0
    (by decide) (by decide) (by decide) (by decide) (by decide)
    (fun k c i a v => rfl) (fun k => rfl) (by norm_num)
  have hB := c4_first_enable_blocking_bit (envRead 1024) stLive 1 1024
    (by decide) (by decide) (by decide) (by decide) (by decide)
    (fun k c i a v => rfl) (fun k => rfl) (by norm_num)
  refine ⟨?_, hA.2.2.1 (by decide), hB.1.mpr (by decide)⟩
  cases hf : (set_motor_enable (envRead 0) 1 true stLive).1 with
  | true => rfl
  | false => exact absurd (hA.1.mp hf) (by decide)

/-- Claim C4 counterexample: a first-time enable whose shutdown
register reads back exactly 0x400 — a value lying entirely inside the
non-blocking classification mask 0x421, hence non-blocking per the
claim — nevertheless returns false. -/
theorem c4_first_enable_counterexample :
    (set_motor_enable (envRead 1024) 1 true stLive).1 = false ∧
    (1024 : Nat) &&& 1057 = 1024 := by
  exact ⟨by decide, by decide⟩

theorem append_read_failures_ne_empty (m : String) : "Read failures: " ++ m ≠ "" := by
  intro h
  have hlen := congrArg String.length h
  rw [String.length_append] at hlen
  have h15 : ("Read failures: ").length = 15 := rfl
  have h0 : ("" : String).length = 0 := rfl
  rw [h15, h0] at hlen
  omega

/-- `_write_attr` touches nothing but the oracle cursor, the trace and
(indirectly, in its caller) the shadow. -/
theorem write_attr_preserves (env : Env) (c i a : Nat) (v : Int) (st : St) :
    (write_attr env c i a v st).2.connected = st.connected ∧
    (write_attr env c i a v st).2.consecutiveReadFailures = st.consecutiveReadFailures ∧
    (write_attr env c i a v st).2.connectionError = st.connectionError ∧
    (write_attr env c i a v st).2.lastVelocities = st.lastVelocities ∧
    (write_attr env c i a v st).2.numAxes = st.numAxes ∧
    (write_attr env c i a v st).2.motorsEnabled = st.motorsEnabled ∧
    (write_attr env c i a v st).2.hasDriver = st.hasDriver := by
  unfold write_attr contact
  split
  · exact ⟨rfl, rfl, rfl, rfl, rfl, rfl, rfl⟩
  · rcases env st.k (.attrMsg true c i a v) with w | _ | m <;>
      exact ⟨rfl, rfl, rfl, rfl, rfl, rfl, rfl⟩

/-- `_read_attr` never touches the Control Layer cache, the axis count,
the driver, the enabled flags or the output-register shadow. -/
theorem read_attr_preserves (env : Env) (c i a : Nat) (st : St) :
    (read_attr env c i a st).2.lastVelocities = st.lastVelocities ∧
    (read_attr env c i a st).2.numAxes = st.numAxes ∧
    (read_attr env c i a st).2.hasDriver = st.hasDriver ∧
    (read_attr env c i a st).2.motorsEnabled = st.motorsEnabled ∧
    (read_attr env c i a st).2.outputReg = st.outputReg := by
  unfold read_attr contact
  split
  · exact ⟨rfl, rfl, rfl, rfl, rfl⟩
  · rcases env st.k (.attrMsg false c i a 0) with w | _ | m
    · exact ⟨rfl, rfl, rfl, rfl, rfl⟩
    · exact ⟨rfl, rfl, rfl, rfl, rfl⟩
    · simp only
      split <;> exact ⟨rfl, rfl, rfl, rfl, rfl⟩

/-- One `_init_axes` round for one axis keeps connectivity, the failure
counter and the error string. -/
theorem init_axis_preserves (env : Env) (axis : Nat) (st : St) :
    (init_axis env axis st).connected = st.connected ∧
    (init_axis env axis st).consecutiveReadFailures = st.consecutiveReadFailures ∧
    (init_axis env axis st).connectionError = st.connectionError := by
  unfold init_axis
  have p1 := write_attr_preserves env MOTOR_CONFIG_CLASS axis ATTR_CFG_NEG_SOFT_LIMIT
    (-2000000000) st
  rcases h1 : write_attr env MOTOR_CONFIG_CLASS axis ATTR_CFG_NEG_SOFT_LIMIT
      (-2000000000) st with ⟨b1, s1⟩
  rw [h1] at p1
  simp only at p1 ⊢
  have p2 := write_attr_preserves env MOTOR_CONFIG_CLASS axis ATTR_CFG_POS_SOFT_LIMIT
    2000000000 s1
  rcases h2 : write_attr env MOTOR_CONFIG_CLASS axis ATTR_CFG_POS_SOFT_LIMIT
      2000000000 s1 with ⟨b2, s2⟩
  rw [h2] at p2
  simp only at p2 ⊢
  have p3 := write_attr_preserves env MOTOR_OUTPUT_CLASS axis ATTR_OUT_VEL_LIMIT
    1000000 s2
  rcases h3 : write_attr env MOTOR_OUTPUT_CLASS axis ATTR_OUT_VEL_LIMIT 1000000 s2
    with ⟨b3, s3⟩
  rw [h3] at p3
  simp only at p3 ⊢
  have p4 := write_attr_preserves env MOTOR_OUTPUT_CLASS axis ATTR_OUT_ACCEL 500000 s3
  rcases h4 : write_attr env MOTOR_OUTPUT_CLASS axis ATTR_OUT_ACCEL 500000 s3
    with ⟨b4, s4⟩
  rw [h4] at p4
  simp only at p4 ⊢
  have p5 := write_attr_preserves env MOTOR_OUTPUT_CLASS axis ATTR_OUT_DECEL 500000 s4
  rcases h5 : write_attr env MOTOR_OUTPUT_CLASS axis ATTR_OUT_DECEL 500000 s4
    with ⟨b5, s5⟩
  rw [h5] at p5
  simp only at p5 ⊢
  exact ⟨by rw [p5.1, p4.1, p3.1, p2.1, p1.1],
         by rw [p5.2.1, p4.2.1, p3.2.1, p2.2.1, p1.2.1],
         by rw [p5.2.2.1, p4.2.2.1, p3.2.2.1, p2.2.2.1, p1.2.2.1]⟩

theorem init_axes_loop_preserves (env : Env) :
    ∀ (l : List Nat) (st : St),
      ((l.foldl (fun s axis => init_axis env axis s) st).connected = st.connected ∧
       (l.foldl (fun s axis => init_axis env axis s) st).consecutiveReadFailures
         = st.consecutiveReadFailures) := by
  intro l
  induction l with
  | nil => intro st; exact ⟨rfl, rfl⟩
  | cons x xs ih =>
      intro st
      have hx := init_axis_preserves env x st
      have hxs := ih (init_axis env x st)
      simp only [List.foldl_cons]
      exact ⟨hxs.1.trans hx.1, hxs.2.trans hx.2.1⟩

/-- Claim C2 (amended): connectivity is a two-state machine — a read
flips it true→false only on reaching the threshold of 3 consecutive
failures, and then the counter was just incremented to the threshold
and `connection_error` is non-empty; writes never change connectivity
or the counter; `disconnect` forces it false; it becomes true only
through a successful `connect`, which zeroes the counter; in addition
to the claim's two causes, a FAILED `connect` attempt also forces the
flag false; and a successful read resets the counter to 0 while
keeping connectivity as it was. -/
theorem c2_connectivity_transitions (env : Env) (st : St) (classId inst attrId : Nat)
    (value : Int) :
    (∀ v, (read_attr env classId inst attrId st).1 = some v →
      (read_attr env classId inst attrId st).2.consecutiveReadFailures = 0 ∧
      (read_attr env classId inst attrId st).2.connected = st.connected) ∧
    (st.connected = true → st.maxReadFailures = 3 →
      (read_attr env classId inst attrId st).2.connected = false →
      (read_attr env classId inst attrId st).2.consecutiveReadFailures
          = st.consecutiveReadFailures + 1 ∧
      3 ≤ st.consecutiveReadFailures + 1 ∧
      (read_attr env classId inst attrId st).2.connectionError ≠ "") ∧
    (st.connected = true → st.maxReadFailures = 3 →
      (read_attr_float env classId inst attrId st).2.connected = false →
      3 ≤ st.consecutiveReadFailures + 1) ∧
    ((write_attr env classId inst attrId value st).2.connected = st.connected ∧
      (write_attr env classId inst attrId value st).2.consecutiveReadFailures
        = st.consecutiveReadFailures) ∧
    (st.hasDriver = true → (disconnect env st).connected = false) ∧
    ((connect env st).1 = true → (connect env st).2.connected = true ∧
      (connect env st).2.consecutiveReadFailures = 0) ∧
    ((connect env st).1 = false → (connect env st).2.connected = false) := by
  refine ⟨?_, ?_, ?_, ?_, ?_, ?_, ?_⟩
  · intro v hv
    unfold read_attr contact at hv ⊢
    split at hv
    · exact absurd hv (by simp)
    · next hlive =>
        rw [if_neg hlive]
        rcases henv : env st.k (.attrMsg false classId inst attrId 0) with w | _ | m
        · simp [henv]
        · rw [henv] at hv
          simp at hv
        · rw [henv] at hv
          simp only at hv
          split at hv <;> simp at hv
  · intro hc hm hdis
    unfold read_attr contact at hdis ⊢
    split at hdis
    · simp only at hdis
      rw [hc] at hdis
      exact absurd hdis (by simp)
    · next hlive =>
        rw [if_neg hlive]
        rcases henv : env st.k (.attrMsg false classId inst attrId 0) with w | _ | m
        · rw [henv] at hdis
          simp only at hdis
          rw [hc] at hdis
          exact absurd hdis (by simp)
        · rw [henv] at hdis
          simp only at hdis
          rw [hc] at hdis
          exact absurd hdis (by simp)
        · rw [henv] at hdis
          simp only [henv]
          simp only at hdis ⊢
          split at hdis
          · next hth =>
              rw [if_pos hth]
              rw [hm] at hth
              exact ⟨rfl, hth, append_read_failures_ne_empty m⟩
          · simp only at hdis
            rw [hc] at hdis
            exact absurd hdis (by simp)
  · intro hc hm hdis
    unfold read_attr_float contact at hdis
    split at hdis
    · simp only at hdis
      rw [hc] at hdis
      exact absurd hdis (by simp)
    · rcases henv : env st.k (.attrMsg false classId inst attrId 0) with w | _ | m
      · rw [henv] at hdis
        simp only at hdis
        rw [hc] at hdis
        exact absurd hdis (by simp)
      · rw [henv] at hdis
        simp only at hdis
        rw [hc] at hdis
        exact absurd hdis (by simp)
      · rw [henv] at hdis
        simp only at hdis
        split at hdis
        · next hth =>
            rw [hm] at hth
            exact hth
        · simp only at hdis
          rw [hc] at hdis
          exact absurd hdis (by simp)
  · have p := write_attr_preserves env classId inst attrId value st
    exact ⟨p.1, p.2.1⟩
  · intro hd
    simp [disconnect, contact, hd]
  · intro hok
    unfold connect contact at hok ⊢
    simp only at hok ⊢
    rcases henv : env st.k Req.openSession with w | _ | m
    · simp only [henv, init_axes]
      exact ⟨(init_axes_loop_preserves env _ _).1, (init_axes_loop_preserves env _ _).2⟩
    · simp only [henv, init_axes]
      exact ⟨(init_axes_loop_preserves env _ _).1, (init_axes_loop_preserves env _ _).2⟩
    · rw [henv] at hok
      simp at hok
  · intro hfail
    unfold connect contact at hfail ⊢
    simp only at hfail ⊢
    rcases henv : env st.k Req.openSession with w | _ | m
    · rw [henv] at hfail
      simp at hfail
    · rw [henv] at hfail
      simp at hfail
    · simp [henv]


/-- Claim C2 witness: a successful read resets the counter without a
reconnect; the third consecutive failing read flips connectivity with a
non-empty error; `disconnect` clears the flag; a successful `connect`
sets it and zeroes the counter. -/
theorem c2_connectivity_transitions_witness :
    ((read_attr envOk 101 1 7 stLive).2.consecutiveReadFailures = 0 ∧
     (read_attr envOk 101 1 7 stLive).2.connected = stLive.connected) ∧
    ((read_attr envExc 101 1 7 stAlmostDead).2.consecutiveReadFailures = 3 ∧
     3 ≤ 3 ∧
     (read_attr envExc 101 1 7 stAlmostDead).2.connectionError ≠ "") ∧
    (disconnect envOk stLive).connected = false ∧
    ((connect envOk ({} : St)).2.connected = true ∧
     (connect envOk ({} : St)).2.consecutiveReadFailures = 0) := by
  refine ⟨?_, ?_, ?_, ?_⟩
  · exact (c2_connectivity_transitions envOk stLive 101 1 7 0).1 (readValue 0) (by decide)
  · exact (c2_connectivity_transitions envExc stAlmostDead 101 1 7 0).2.1
      (by decide) (by decide) (by decide)
  · exact (c2_connectivity_transitions envOk stLive 101 1 7 0).2.2.2.2.1 (by decide)
  · exact (c2_connectivity_transitions envOk ({} : St) 101 1 7 0).2.2.2.2.2.1 (by decide)

/-- Claim C2 counterexample: from a connected state with a zero failure
counter, a FAILED `connect` call (transport exception while opening the
session) drives the connectivity flag true→false even though the
consecutive-read-failure counter never reached 3 and no explicit
`disconnect` call happened. -/
theorem c2_connectivity_counterexample :
    stLive.connected = true ∧
    (connect envExc stLive).1 = false ∧
    (connect envExc stLive).2.connected = false ∧
    (connect envExc stLive).2.consecutiveReadFailures = 0 ∧
    (connect envExc stLive).2.connectionError = "boom" := by
  exact ⟨rfl, by decide, by decide, by decide, by decide⟩

/-- Claim C9 witness: a successful write updates the shadow, a failing
write leaves it unchanged. -/
theorem c9_shadow_tracks_successful_writes_witness :
    (write_output_reg envOk 1 5 stLive).2.outputReg = stLive.outputReg.set 0 5 ∧
    (write_output_reg envExc 1 5 stLive).2.outputReg = stLive.outputReg := by
  exact ⟨(c9_shadow_tracks_successful_writes envOk stLive 1 5 (by decide) (by decide)).1
           (by decide),
         (c9_shadow_tracks_successful_writes envExc stLive 1 5 (by decide) (by decide)).2
           (by decide)⟩

/-- `_write_output_reg` touches nothing but the cursor, the trace and
the output-register shadow. -/
theorem write_output_reg_preserves (env : Env) (axis : Nat) (v : Int) (st : St) :
    (write_output_reg env axis v st).2.connected = st.connected ∧
    (write_output_reg env axis v st).2.hasDriver = st.hasDriver ∧
    (write_output_reg env axis v st).2.numAxes = st.numAxes ∧
    (write_output_reg env axis v st).2.lastVelocities = st.lastVelocities ∧
    (write_output_reg env axis v st).2.motorsEnabled = st.motorsEnabled := by
  unfold write_output_reg
  split
  · exact ⟨rfl, rfl, rfl, rfl, rfl⟩
  · have p := write_attr_preserves env MOTOR_OUTPUT_CLASS axis ATTR_OUT_OUTPUT_REG v st
    rcases hw : write_attr env MOTOR_OUTPUT_CLASS axis ATTR_OUT_OUTPUT_REG v st
      with ⟨b, st1⟩
    rw [hw] at p
    simp only at p ⊢
    cases b
    · rw [if_neg (by simp)]
      exact ⟨p.1, p.2.2.2.2.2.2, p.2.2.2.2.1, p.2.2.2.1, p.2.2.2.2.2.1⟩
    · rw [if_pos rfl]
      exact ⟨p.1, p.2.2.2.2.2.2, p.2.2.2.2.1, p.2.2.2.1, p.2.2.2.2.2.1⟩

/-- Under an oracle whose output-register read-backs never show the
Load bit clear, a verification read yields either a failure or a value
with the Load bit still set. -/
theorem read_out_cases (env : Env) (axis : Nat)
    (henv : ∀ k w, env k (.attrMsg false MOTOR_OUTPUT_CLASS axis ATTR_OUT_OUTPUT_REG 0)
      = .ok w → ¬pyAnd (readValue w) BIT_LOAD_VEL_MOVE = 0)
    (st : St) :
    ((read_attr env MOTOR_OUTPUT_CLASS axis ATTR_OUT_OUTPUT_REG st).1 = none) ∨
    (∃ v, (read_attr env MOTOR_OUTPUT_CLASS axis ATTR_OUT_OUTPUT_REG st).1 = some v ∧
      ¬pyAnd v BIT_LOAD_VEL_MOVE = 0) := by
  unfold read_attr contact
  split
  · exact Or.inl rfl
  · rcases henv2 : env st.k (.attrMsg false MOTOR_OUTPUT_CLASS axis ATTR_OUT_OUTPUT_REG 0)
      with w | _ | m
    · exact Or.inr ⟨readValue w, by simp [henv2], henv st.k w henv2⟩
    · simp [henv2]
    · simp only [henv2]
      left
      split <;> rfl

/-- Step 5 of `stop_motor` under an oracle whose output-register
read-backs never clear the Load bit (or fail): every one of the `n`
verification attempts is performed and the flag stays false. -/
theorem clear_load_loop_never_clears (env : Env) (axis : Nat)
    (henv : ∀ k w, env k (.attrMsg false MOTOR_OUTPUT_CLASS axis ATTR_OUT_OUTPUT_REG 0)
      = .ok w → ¬pyAnd (readValue w) BIT_LOAD_VEL_MOVE = 0) :
    ∀ n st, (clear_load_loop env axis n st).1 = (false, n) := by
  intro n
  induction n with
  | zero => intro st; rfl
  | succ n ih =>
      intro st
      unfold clear_load_loop
      simp only
      rcases hread : read_attr env MOTOR_OUTPUT_CLASS axis ATTR_OUT_OUTPUT_REG
          (write_output_reg env axis BIT_ENABLE st).2 with ⟨out, st2⟩
      rcases read_out_cases env axis henv (write_output_reg env axis BIT_ENABLE st).2
        with hnone | ⟨v, hsome, hv⟩
      · rw [hread] at hnone
        simp only at hnone
        subst hnone
        simp only
        rcases hrec : clear_load_loop env axis n st2 with ⟨r, st3⟩
        have hr := ih st2
        rw [hrec] at hr
        simp only at hr
        subst hr
        rfl
      · rw [hread] at hsome
        simp only at hsome
        subst hsome
        simp only
        rw [if_neg hv]
        rcases hrec : clear_load_loop env axis n st2 with ⟨r, st3⟩
        have hr := ih st2
        rw [hrec] at hr
        simp only at hr
        subst hr
        rfl

/-- Step 5 of `stop_motor` from a live state under an oracle whose
output-register read-backs always show the Load bit clear: the very
first verification attempt succeeds. -/
theorem clear_load_loop_first_clear (env : Env) (axis : Nat)
    (henv : ∀ k, ∃ w, env k (.attrMsg false MOTOR_OUTPUT_CLASS axis ATTR_OUT_OUTPUT_REG 0)
      = .ok w ∧ pyAnd (readValue w) BIT_LOAD_VEL_MOVE = 0)
    (n : Nat) (st : St) (hc : st.connected = true) (hd : st.hasDriver = true) :
    (clear_load_loop env axis (n + 1) st).1 = (true, 1) := by
  unfold clear_load_loop
  simp only
  have pw := write_output_reg_preserves env axis BIT_ENABLE st
  obtain ⟨w, hw, hclear⟩ := henv (write_output_reg env axis BIT_ENABLE st).2.k
  have hfst := read_attr_fst env MOTOR_OUTPUT_CLASS axis ATTR_OUT_OUTPUT_REG
    (write_output_reg env axis BIT_ENABLE st).2 (pw.1.trans hc) (pw.2.1.trans hd) w hw
  rcases hread : read_attr env MOTOR_OUTPUT_CLASS axis ATTR_OUT_OUTPUT_REG
      (write_output_reg env axis BIT_ENABLE st).2 with ⟨out, st2⟩
  rw [hread] at hfst
  simp only at hfst
  subst hfst
  simp only
  rw [if_pos hclear]

/-- Claim C1: for a valid axis, the result of `stop_motor` is exactly
the step-5 verification flag computed after steps 1-4 — the ack polls
of steps 4 and 6 never influence it; when every output-register
read-back keeps the Load bit set or fails, all 3 verification attempts
run and the call returns false; and from a live state whose
read-backs show the bit clear, the loop succeeds on its first attempt
(so the call returns true through the step-5 outcome). -/
theorem c1_stop_result_is_step5_verification (env : Env) (st : St) (axis : Nat)
    (h1 : 1 ≤ axis) (h2 : axis ≤ st.numAxes) :
    ((stop_motor env axis st).1
        = ((clear_load_loop env axis 3 (stop_steps_1_to_4 env axis st)).1).1) ∧
    ((∀ k w, env k (.attrMsg false MOTOR_OUTPUT_CLASS axis ATTR_OUT_OUTPUT_REG 0)
        = .ok w → ¬pyAnd (readValue w) BIT_LOAD_VEL_MOVE = 0) →
      (stop_motor env axis st).1 = false ∧
      (clear_load_loop env axis 3 (stop_steps_1_to_4 env axis st)).1 = (false, 3)) ∧
    (∀ st2, st2.connected = true → st2.hasDriver = true →
      (∀ k, ∃ w, env k (.attrMsg false MOTOR_OUTPUT_CLASS axis ATTR_OUT_OUTPUT_REG 0)
        = .ok w ∧ pyAnd (readValue w) BIT_LOAD_VEL_MOVE = 0) →
      (clear_load_loop env axis 3 st2).1 = (true, 1)) := by
  have hg : ¬(axis < 1 ∨ axis > st.numAxes) := by omega
  have hA : (stop_motor env axis st).1
      = ((clear_load_loop env axis 3 (stop_steps_1_to_4 env axis st)).1).1 := by
    unfold stop_motor
    rw [if_neg hg]
  refine ⟨hA, ?_, ?_⟩
  · intro henv
    have hloop := clear_load_loop_never_clears env axis henv 3
      (stop_steps_1_to_4 env axis st)
    constructor
    · rw [hA, hloop]
    · exact hloop
  · intro st2 hc hd henv
    exact clear_load_loop_first_clear env axis henv 2 st2 hc hd

/-- Claim C1 witness: with an always-failing transport the `stop_motor`
call on axis 1 returns false after exactly 3 verification attempts;
with an all-clear transport the verification succeeds on attempt 1. -/
theorem c1_stop_result_is_step5_verification_witness :
    (stop_motor envExc 1 stLive).1 = false ∧
    (clear_load_loop envExc 1 3 (stop_steps_1_to_4 envExc 1 stLive)).1 = (false, 3) ∧
    (clear_load_loop envOk 1 3 stLive).1 = (true, 1) := by
  have hx := c1_stop_result_is_step5_verification envExc stLive 1 (by decide) (by decide)
  have ho := c1_stop_result_is_step5_verification envOk stLive 1 (by decide) (by decide)
  obtain ⟨hB1, hB2⟩ := hx.2.1 (fun k w hw => DevResp.noConfusion hw)
  exact ⟨hB1, hB2, ho.2.2 stLive (by decide) (by decide) (fun k => ⟨0, rfl, by decide⟩)⟩

-- The Protocol Layer never touches the Control Layer velocity cache

theorem read_attr_lastVel (env : Env) (c i a : Nat) (st : St) :
    (read_attr env c i a st).2.lastVelocities = st.lastVelocities :=
  (read_attr_preserves env c i a st).1

theorem write_attr_lastVel (env : Env) (c i a : Nat) (v : Int) (st : St) :
    (write_attr env c i a v st).2.lastVelocities = st.lastVelocities :=
  (write_attr_preserves env c i a v st).2.2.2.1

theorem write_output_reg_lastVel (env : Env) (axis : Nat) (v : Int) (st : St) :
    (write_output_reg env axis v st).2.lastVelocities = st.lastVelocities :=
  (write_output_reg_preserves env axis v st).2.2.2.1

theorem poll_ack_clear_lastVel (env : Env) (axis : Nat) :
    ∀ n st, (poll_ack_clear env axis n st).lastVelocities = st.lastVelocities := by
  intro n
  induction n with
  | zero => intro st; rfl
  | succ n ih =>
      intro st
      unfold poll_ack_clear
      rcases ho : (read_attr env MOTOR_INPUT_CLASS axis ATTR_IN_STATUS_REG st).1
        with _ | v
      · simp only [ho]
        rw [ih, read_attr_lastVel]
      · simp only [ho]
        split
        · rw [read_attr_lastVel]
        · rw [ih, read_attr_lastVel]

theorem poll_ack_set_lastVel (env : Env) (axis : Nat) :
    ∀ n st, (poll_ack_set env axis n st).lastVelocities = st.lastVelocities := by
  intro n
  induction n with
  | zero => intro st; rfl
  | succ n ih =>
      intro st
      unfold poll_ack_set
      rcases ho : (read_attr env MOTOR_INPUT_CLASS axis ATTR_IN_STATUS_REG st).1
        with _ | v
      · simp only [ho]
        rw [ih, read_attr_lastVel]
      · simp only [ho]
        split
        · rw [read_attr_lastVel]
        · rw [ih, read_attr_lastVel]

theorem clear_load_loop_lastVel (env : Env) (axis : Nat) :
    ∀ n st, (clear_load_loop env axis n st).2.lastVelocities = st.lastVelocities := by
  intro n
  induction n with
  | zero => intro st; rfl
  | succ n ih =>
      intro st
      unfold clear_load_loop
      simp only
      rcases ho : (read_attr env MOTOR_OUTPUT_CLASS axis ATTR_OUT_OUTPUT_REG
          (write_output_reg env axis BIT_ENABLE st).2).1 with _ | v
      · simp only [ho]
        rw [ih, read_attr_lastVel, write_output_reg_lastVel]
      · simp only [ho]
        split
        · rw [read_attr_lastVel, write_output_reg_lastVel]
        · rw [ih, read_attr_lastVel, write_output_reg_lastVel]

theorem stop_steps_lastVel (env : Env) (axis : Nat) (st : St) :
    (stop_steps_1_to_4 env axis st).lastVelocities = st.lastVelocities := by
  unfold stop_steps_1_to_4
  rw [poll_ack_set_lastVel, write_output_reg_lastVel, write_attr_lastVel]
  rcases ho : (read_attr env MOTOR_INPUT_CLASS axis ATTR_IN_STATUS_REG st).1 with _ | v
  · simp only [ho]
    rw [read_attr_lastVel]
  · simp only [ho]
    split
    · rw [poll_ack_clear_lastVel, write_output_reg_lastVel, read_attr_lastVel]
    · rw [read_attr_lastVel]

theorem stop_motor_lastVel (env : Env) (axis : Nat) (st : St) :
    (stop_motor env axis st).2.lastVelocities = st.lastVelocities := by
  unfold stop_motor
  split
  · rfl
  · simp only
    rw [poll_ack_clear_lastVel, clear_load_loop_lastVel, stop_steps_lastVel]

theorem set_velocity_lastVel (env : Env) (axis : Nat) (v a : Int) (st : St) :
    (set_velocity env axis v a st).2.lastVelocities = st.lastVelocities := by
  unfold set_velocity
  split
  · rfl
  · simp only
    rw [read_attr_lastVel, write_attr_lastVel, write_attr_lastVel, write_attr_lastVel,
      write_attr_lastVel]

theorem trigger_move_lastVel (env : Env) (axis : Nat) (st : St) :
    (trigger_move env axis st).2.lastVelocities = st.lastVelocities := by
  unfold trigger_move
  split
  · rfl
  · simp only
    rw [write_output_reg_lastVel]
    rcases h1 : (read_attr env MOTOR_INPUT_CLASS axis ATTR_IN_SHUTDOWN_REG st).1
      with _ | v
    · simp only [h1]
      rcases h2 : (read_attr env MOTOR_INPUT_CLASS axis ATTR_IN_STATUS_REG
          (read_attr env MOTOR_INPUT_CLASS axis ATTR_IN_SHUTDOWN_REG st).2).1 with _ | u
      · simp only [h2]
        rw [read_attr_lastVel, read_attr_lastVel]
      · simp only [h2]
        split
        · rw [poll_ack_clear_lastVel, write_output_reg_lastVel, read_attr_lastVel,
            read_attr_lastVel]
        · rw [read_attr_lastVel, read_attr_lastVel]
    · simp only [h1]
      by_cases hv : v ≠ 0
      · simp only [if_pos hv]
        rcases h2 : (read_attr env MOTOR_INPUT_CLASS axis ATTR_IN_STATUS_REG
            (write_output_reg env axis BIT_ENABLE (write_output_reg env axis 0
              (write_output_reg env axis (pyOr BIT_CLEAR_ALERTS BIT_CLEAR_MOTOR_FAULT)
                (read_attr env MOTOR_INPUT_CLASS axis ATTR_IN_SHUTDOWN_REG st).2).2).2).2).1
          with _ | u
        · simp only [h2]
          rw [read_attr_lastVel, write_output_reg_lastVel, write_output_reg_lastVel,
            write_output_reg_lastVel, read_attr_lastVel]
        · simp only [h2]
          split
          · rw [poll_ack_clear_lastVel, write_output_reg_lastVel, read_attr_lastVel,
              write_output_reg_lastVel, write_output_reg_lastVel, write_output_reg_lastVel,
              read_attr_lastVel]
          · rw [read_attr_lastVel, write_output_reg_lastVel, write_output_reg_lastVel,
              write_output_reg_lastVel, read_attr_lastVel]
      · simp only [if_neg hv]
        rcases h2 : (read_attr env MOTOR_INPUT_CLASS axis ATTR_IN_STATUS_REG
            (read_attr env MOTOR_INPUT_CLASS axis ATTR_IN_SHUTDOWN_REG st).2).1 with _ | u
        · simp only [h2]
          rw [read_attr_lastVel, read_attr_lastVel]
        · simp only [h2]
          split
          · rw [poll_ack_clear_lastVel, write_output_reg_lastVel, read_attr_lastVel,
              read_attr_lastVel]
          · rw [read_attr_lastVel, read_attr_lastVel]

theorem set_velocity_fst (env : Env) (axis : Nat) (v a : Int) (st : St)
    (h1 : 1 ≤ axis) (h2 : axis ≤ st.numAxes) :
    (set_velocity env axis v a st).1 = true := by
  unfold set_velocity
  rw [if_neg (by omega)]

/-- Claim C6: per-axis dispatch of `drive_velocity` — a repeated
nonzero velocity is skipped with no device interaction and no state
change; velocity 0 always invokes `stop_motor` (even when the cache is
already 0), resetting the cache entry to 0 exactly on its success;
any other velocity runs `set_velocity` then `trigger_move`, the cache
becoming the new velocity exactly when the trigger succeeds
(`set_velocity` itself always reports success); and a per-axis failure
leaves the remaining axes processed, the overall result being the
conjunction. -/
theorem c6_drive_velocity_dispatch (env : Env) (st : St) (i : Nat)
    (velocity accel : Int) :
    (velocity ≠ 0 → st.lastVelocities.getD i 0 = velocity →
      ClearLinkControl.drive_axis env accel i velocity st = (true, st)) ∧
    ((ClearLinkControl.drive_axis env accel i 0 st).1 = (stop_motor env (i + 1) st).1 ∧
     (ClearLinkControl.drive_axis env accel i 0 st).2.trace
        = (stop_motor env (i + 1) st).2.trace ∧
     ((stop_motor env (i + 1) st).1 = true →
        (ClearLinkControl.drive_axis env accel i 0 st).2.lastVelocities
          = st.lastVelocities.set i 0) ∧
     ((stop_motor env (i + 1) st).1 = false →
        (ClearLinkControl.drive_axis env accel i 0 st).2.lastVelocities
          = st.lastVelocities)) ∧
    (velocity ≠ 0 → st.lastVelocities.getD i 0 ≠ velocity → i + 1 ≤ st.numAxes →
      ((ClearLinkControl.drive_axis env accel i velocity st).1
          = (trigger_move env (i + 1) (set_velocity env (i + 1) velocity accel st).2).1 ∧
       (ClearLinkControl.drive_axis env accel i velocity st).2.trace
          = (trigger_move env (i + 1) (set_velocity env (i + 1) velocity accel st).2).2.trace ∧
       ((trigger_move env (i + 1) (set_velocity env (i + 1) velocity accel st).2).1 = true →
          (ClearLinkControl.drive_axis env accel i velocity st).2.lastVelocities
            = st.lastVelocities.set i velocity) ∧
       ((trigger_move env (i + 1) (set_velocity env (i + 1) velocity accel st).2).1 = false →
          (ClearLinkControl.drive_axis env accel i velocity st).2.lastVelocities
            = st.lastVelocities))) ∧
    (∀ rest, i + 1 ≤ st.numAxes →
      ClearLinkControl.drive_loop env accel (velocity :: rest) i st
        = ((ClearLinkControl.drive_axis env accel i velocity st).1
             && (ClearLinkControl.drive_loop env accel rest (i + 1)
                   (ClearLinkControl.drive_axis env accel i velocity st).2).1,
           (ClearLinkControl.drive_loop env accel rest (i + 1)
             (ClearLinkControl.drive_axis env accel i velocity st).2).2)) := by
  refine ⟨?_, ?_, ?_, ?_⟩
  · intro hv hlast
    unfold ClearLinkControl.drive_axis
    rw [if_pos ⟨hv, hlast.symm⟩]
  · unfold ClearLinkControl.drive_axis
    rw [if_neg (by simp), if_pos rfl]
    have hlv := stop_motor_lastVel env (i + 1) st
    rcases hstop : stop_motor env (i + 1) st with ⟨ok, st1⟩
    rw [hstop] at hlv
    simp only at hlv ⊢
    cases ok
    · rw [if_pos rfl]
      exact ⟨rfl, rfl, fun h => absurd h (by simp), fun h => hlv⟩
    · rw [if_neg (by simp)]
      exact ⟨rfl, rfl, fun h => by rw [hlv], fun h => absurd h (by simp)⟩
  · intro hv hlast hax
    unfold ClearLinkControl.drive_axis
    rw [if_neg (fun hh => hlast hh.2.symm), if_neg hv]
    have hsv := set_velocity_fst env (i + 1) velocity accel st (by omega) hax
    have hsvl := set_velocity_lastVel env (i + 1) velocity accel st
    rcases hvel : set_velocity env (i + 1) velocity accel st with ⟨vok, st1⟩
    rw [hvel] at hsv hsvl
    simp only at hsv hsvl ⊢
    subst hsv
    rw [if_neg (by simp)]
    have htl := trigger_move_lastVel env (i + 1) st1
    rcases htr : trigger_move env (i + 1) st1 with ⟨tok, st2⟩
    rw [htr] at htl
    simp only at htl ⊢
    cases tok
    · rw [if_pos rfl]
      exact ⟨rfl, rfl, fun h => absurd h (by simp), fun h => by rw [htl, hsvl]⟩
    · rw [if_neg (by simp)]
      exact ⟨rfl, rfl, fun h => by rw [htl, hsvl], fun h => absurd h (by simp)⟩
  · intro rest hax
    conv_lhs => unfold ClearLinkControl.drive_loop
    rw [if_neg (by omega)]

/-- Claim C6 witness: cached velocity 5 requested again is skipped
without device contact; velocity 0 goes through `stop_motor` and
resets the cache; velocity 7 goes through `set_velocity` and
`trigger_move` and caches 7; and the loop equation at a concrete
one-axis command list. -/
theorem c6_drive_velocity_dispatch_witness :
    ClearLinkControl.drive_axis envOk 10000 0 5 stVel5 = (true, stVel5) ∧
    (ClearLinkControl.drive_axis envOk 10000 0 0 stLive).2.lastVelocities
      = stLive.lastVelocities.set 0 0 ∧
    (ClearLinkControl.drive_axis envOk 10000 0 7 stLive).2.lastVelocities
      = stLive.lastVelocities.set 0 7 ∧
    ClearLinkControl.drive_loop envOk 10000 [0] 0 stLive
      = ((ClearLinkControl.drive_axis envOk 10000 0 0 stLive).1
           && (ClearLinkControl.drive_loop envOk 10000 [] 1
                 (ClearLinkControl.drive_axis envOk 10000 0 0 stLive).2).1,
         (ClearLinkControl.drive_loop envOk 10000 [] 1
           (ClearLinkControl.drive_axis envOk 10000 0 0 stLive).2).2) := by
  have h5 := c6_drive_velocity_dispatch envOk stVel5 0 5 10000
  have h0 := c6_drive_velocity_dispatch envOk stLive 0 0 10000
  have h7 := c6_drive_velocity_dispatch envOk stLive 0 7 10000
  refine ⟨h5.1 (by decide) (by decide), ?_, ?_, h0.2.2.2 [] (by decide)⟩
  · exact h0.2.1.2.2.1 (by decide)
  · exact (h7.2.2.1 (by decide) (by decide) (by decide)).2.2.1 (by decide)

/-- Claim C8 witness: with an all-zero device `clear_faults` on axis 1
succeeds; with a device whose shutdown register reads back 9 it fails
while the zero write is still applied to the shadow. -/
theorem c8_clear_faults_verify_witness :
    (clear_faults envOk 1 stLive).1 = true ∧
    (clear_faults (envRead 9) 1 stLive).1 = false ∧
    (clear_faults (envRead 9) 1 stLive).2.outputReg = stLive.outputReg.set 0 0 := by
  have hA := c8_clear_faults_verify envOk stLive 1 0 (by decide) (by decide)
    (by decide) (by decide) (fun k c i a v => rfl) (fun k => rfl) (by norm_num)
  have hB := c8_clear_faults_verify (envRead 9) stLive 1 9 (by decide) (by decide)
    (by decide) (by decide) (fun k c i a v => rfl) (fun k => rfl) (by norm_num)
  refine ⟨hA.1.mpr rfl, ?_, hB.2.2⟩
  cases hf : (clear_faults (envRead 9) 1 stLive).1 with
  | false => rfl
  | true => exact absurd (hB.1.mp hf) (by decide)
